import Mathlib

/-!
Verification development for `src/cascadia/WindowsTerminal/IslandWindow.cpp`
(the "WindowHost" adapter of the terminal repository).

Shallow embedding: each C++ member function is translated into a pure Lean
function over an explicit `IslandWindowState`.  Calls into the Win32 API
(`ShowWindow`, `SetWindowPos`, `SetFocus`, ...) and event raises are recorded
in effect records so that theorems can speak about the observable behaviour of
each handler.  Environment-dependent system queries (`GetMonitorInfo`, the
logical DPI-scaled size, `WindowUiaProvider::Create`) are supplied through a
`SysEnv` record.
-/

/-- A Win32 `RECT`: `left`, `top`, `right`, `bottom` as signed integers. -/
structure Rect where
  left : Int
  top : Int
  right : Int
  bottom : Int
deriving DecidableEq, Repr

/-- `RECT_WIDTH` from IslandWindow.cpp: `pRect->right - pRect->left`. -/
def RECT_WIDTH (r : Rect) : Int := r.right - r.left

/-- `RECT_HEIGHT` from IslandWindow.cpp: `pRect->bottom - pRect->top`. -/
def RECT_HEIGHT (r : Rect) : Int := r.bottom - r.top

/-- `SW_SHOW` Win32 constant. -/
def SW_SHOW : Nat := 5

/-- `SW_MAXIMIZE` Win32 constant. -/
def SW_MAXIMIZE : Nat := 3

/-- `MNC_CLOSE` Win32 constant. -/
def MNC_CLOSE : Nat := 1

/-- `WS_OVERLAPPEDWINDOW` Win32 style bits. -/
def WS_OVERLAPPEDWINDOW : Nat := 0x00CF0000

/-- `WS_POPUP` Win32 style bit. -/
def WS_POPUP : Nat := 0x80000000

/-- `WS_EX_WINDOWEDGE` Win32 extended style bit. -/
def WS_EX_WINDOWEDGE : Nat := 0x00000100

/-- All ones in 32 bits, for flag clearing on `LONG` style words. -/
def MASK32 : Nat := 2 ^ 32 - 1

/-- `WI_ClearAllFlags` / `WI_ClearFlag`: clear the `mask` bits of `v`. -/
def clearFlags (v mask : Nat) : Nat := v &&& (mask ^^^ MASK32)

/-- `WI_SetAllFlags` / `WI_SetFlag`: set the `mask` bits of `v`. -/
def setFlags (v mask : Nat) : Nat := v ||| mask

/-- `MAKELRESULT(lo, hi)`: low word `lo`, high word `hi`. -/
def MAKELRESULT (lo hi : Nat) : Nat := lo % 2 ^ 16 + (hi % 2 ^ 16) * 2 ^ 16

/-- `winrt::TerminalApp::LaunchMode`. -/
inductive LaunchMode where
  | defaultMode
  | maximizedMode
deriving DecidableEq, Repr

/-- The fields of a `CREATESTRUCTW` that `_HandleCreateWindow` reads. -/
structure CreateStruct where
  x : Int
  y : Int
  cx : Int
  cy : Int
deriving DecidableEq, Repr

/-- The window messages dispatched by `IslandWindow::MessageHandler`; every
other message code is collapsed into `wmOther`. -/
inductive WindowMessage where
  | wmCreate (cs : CreateStruct)
  | wmSetFocus
  | wmNcLButtonDown
  | wmNcLButtonUp
  | wmNcMButtonDown
  | wmNcMButtonUp
  | wmNcRButtonDown
  | wmNcRButtonUp
  | wmNcXButtonDown
  | wmNcXButtonUp
  | wmMenuChar
  | wmClose
  | wmOther (code : Nat)
deriving DecidableEq, Repr

/-- The root `Grid`'s logical width/height, the only Grid state `OnSize`
touches (logical sizes are `double` in the source; modelled as integers, the
claims do not depend on their arithmetic). -/
structure GridState where
  width : Int
  height : Int
deriving DecidableEq, Repr

/-- The mutable state of an `IslandWindow` that the verified operations read
or write.  Window handles are modelled as `Nat`; `none` models a null
`HWND`/COM pointer. -/
structure IslandWindowState where
  window : Nat
  interopWindowHandle : Option Nat
  rootGrid : Option GridState
  fullscreen : Bool
  rcNonFullscreenWindowSize : Rect
  rcFullscreenWindowSize : Rect
  windowStyle : Nat
  windowExStyle : Nat
  windowRect : Rect
  pUiaProvider : Option Nat
deriving DecidableEq, Repr

/-- System environment for one call: the monitor rectangle that
`MonitorFromWindow` + `GetMonitorInfo` would report (`none` models
`GetMonitorInfo` failing), the logical DPI-scaled size `GetLogicalSize`
returns, and the outcome of `WindowUiaProvider::Create` (`none` models a
thrown exception). -/
structure SysEnv where
  monitorInfo : Option Rect
  logicalSize : Int × Int
  uiaCreateResult : Option Nat

/-- The `_pfnCreateCallback` slot: receives the `HWND` and the proposed
bounds, and (through its by-reference parameter) yields a `LaunchMode`. -/
abbrev CreateCallback := Nat → Rect → LaunchMode

/-- Observable effects of one `MessageHandler` invocation: Win32 calls made
and events raised.  `postQuitMessageCalled` / `destroyWindowCalled` record
process-terminating calls (the handler makes none; `PostQuitMessage` lives
only in `IslandWindow::Close`). -/
structure HandlerEffects where
  setFocusCalls : List Nat
  showWindowCalls : List (Nat × Nat)
  updateWindowCalls : List Nat
  createCallbackCalls : List (Nat × Rect)
  dragRegionClickedRaised : Bool
  windowCloseButtonClickedRaised : Bool
  postQuitMessageCalled : Bool
  destroyWindowCalled : Bool
deriving DecidableEq, Repr

/-- No effects: the value every handler branch starts from. -/
def noEffects : HandlerEffects :=
  { setFocusCalls := []
    showWindowCalls := []
    updateWindowCalls := []
    createCallbackCalls := []
    dragRegionClickedRaised := false
    windowCloseButtonClickedRaised := false
    postQuitMessageCalled := false
    destroyWindowCalled := false }

/-- Result of `MessageHandler`: either an `LRESULT` returned directly, or
delegation to `base_type::MessageHandler` (`DefWindowProc`). -/
inductive MessageOutcome where
  | handled (lresult : Nat)
  | delegated
deriving DecidableEq, Repr

/-- The proposed window rectangle `_HandleCreateWindow` builds from the
`CREATESTRUCTW`: `left = x`, `top = y`, `right = x + cx`, `bottom = y + cy`. -/
def createRect (cs : CreateStruct) : Rect :=
  { left := cs.x, top := cs.y, right := cs.x + cs.cx, bottom := cs.y + cs.cy }

/-- `IslandWindow::_HandleCreateWindow`: builds the proposed rect, invokes the
creation callback (if set) to obtain a launch mode, then calls `ShowWindow`
with `SW_MAXIMIZE` for `MaximizedMode` and `SW_SHOW` otherwise, followed by
`UpdateWindow`. -/
def handleCreateWindow (pfnCreateCallback : Option CreateCallback)
    (s : IslandWindowState) (cs : CreateStruct) : HandlerEffects :=
  let rc := createRect cs
  let launchMode :=
    match pfnCreateCallback with
    | some pfn => pfn s.window rc
    | none => LaunchMode.defaultMode
  let nCmdShow := if launchMode = LaunchMode.maximizedMode then SW_MAXIMIZE else SW_SHOW
  { noEffects with
      createCallbackCalls :=
        match pfnCreateCallback with
        | some _ => [(s.window, rc)]
        | none => []
      showWindowCalls := [(s.window, nCmdShow)]
      updateWindowCalls := [s.window] }

/-- `IslandWindow::MessageHandler`.  Note the C++ `switch` fallthrough: the
`WM_SETFOCUS` case has no `break`, so when `_interopWindowHandle` is null
control falls into the non-client button cases, which raise
`_DragRegionClickedHandlers()` and then `break` to the base handler. -/
def messageHandler (pfnCreateCallback : Option CreateCallback)
    (s : IslandWindowState) (msg : WindowMessage) : HandlerEffects × MessageOutcome :=
  match msg with
  | .wmCreate cs =>
      (handleCreateWindow pfnCreateCallback s cs, .handled 0)
  | .wmSetFocus =>
      match s.interopWindowHandle with
      | some h => ({ noEffects with setFocusCalls := [h] }, .handled 0)
      | none => ({ noEffects with dragRegionClickedRaised := true }, .delegated)
  | .wmNcLButtonDown | .wmNcLButtonUp
  | .wmNcMButtonDown | .wmNcMButtonUp
  | .wmNcRButtonDown | .wmNcRButtonUp
  | .wmNcXButtonDown | .wmNcXButtonUp =>
      ({ noEffects with dragRegionClickedRaised := true }, .delegated)
  | .wmMenuChar =>
      (noEffects, .handled (MAKELRESULT 0 MNC_CLOSE))
  | .wmClose =>
      ({ noEffects with windowCloseButtonClickedRaised := true }, .handled 0)
  | .wmOther _ =>
      (noEffects, .delegated)

/-- Effects of `OnSize`/`OnResize`: the `SetWindowPos` call on the interop
window (handle, width, height). -/
structure ResizeEffects where
  interopSetWindowPosCalls : List (Option Nat × Nat × Nat)
deriving DecidableEq, Repr

/-- `IslandWindow::OnSize`: resizes the interop window via `SetWindowPos` and,
if the root grid exists, sets its logical width/height from
`GetLogicalSize()`. -/
def onSize (env : SysEnv) (s : IslandWindowState) (width height : Nat) :
    IslandWindowState × ResizeEffects :=
  let eff : ResizeEffects :=
    { interopSetWindowPosCalls := [(s.interopWindowHandle, width, height)] }
  match s.rootGrid with
  | some _ =>
      ({ s with rootGrid := some { width := env.logicalSize.1, height := env.logicalSize.2 } }, eff)
  | none => (s, eff)

/-- `IslandWindow::OnResize`: forwards to `OnSize` only when
`_interopWindowHandle` is non-null. -/
def onResize (env : SysEnv) (s : IslandWindowState) (width height : Nat) :
    IslandWindowState × ResizeEffects :=
  match s.interopWindowHandle with
  | some _ => onSize env s width height
  | none => (s, { interopSetWindowPosCalls := [] })

/-- `IslandWindow::_GetUiaProvider`: if no provider is stored, tries
`WindowUiaProvider::Create`; a thrown exception is caught, logged and the
stored provider set to null.  Returns (new state, returned provider, whether
the failure was logged). -/
def getUiaProvider (env : SysEnv) (s : IslandWindowState) :
    IslandWindowState × Option Nat × Bool :=
  match s.pUiaProvider with
  | some p => (s, some p, false)
  | none =>
      match env.uiaCreateResult with
      | some p => ({ s with pUiaProvider := some p }, some p, false)
      | none => ({ s with pUiaProvider := none }, none, true)

/-- Modelled from the spec: `_ShouldUpdateStylesOnFullscreen` is declared in
`IslandWindow.h`, which is not part of the sources; the spec describes it as a
guard that "gates whether style bits are touched at all, allowing callers to
re-enter the same state without visual side effects", i.e. styles change
exactly when the fullscreen state actually changes. -/
def shouldUpdateStylesOnFullscreen (fOld fNew : Bool) : Bool := fOld != fNew

/-- `IslandWindow::_BackupWindowSizes`: when the (new) state is fullscreen,
back up the current window rect as the non-fullscreen size only if the window
was not already in fullscreen, and back up the current monitor rect (when
`GetMonitorInfo` succeeds) as the fullscreen size. -/
def backupWindowSizes (env : SysEnv) (s : IslandWindowState)
    (fCurrentIsInFullscreen : Bool) : IslandWindowState :=
  if s.fullscreen then
    let s1 :=
      if !fCurrentIsInFullscreen then
        { s with rcNonFullscreenWindowSize := s.windowRect }
      else s
    match env.monitorInfo with
    | some m => { s1 with rcFullscreenWindowSize := m }
    | none => s1
  else s

/-- `IslandWindow::_ApplyWindowSize`: one `SetWindowPos(hwnd, HWND_TOP, left,
top, width, height, SWP_FRAMECHANGED)` call targeting the fullscreen rect or
the restored non-fullscreen rect.  Returns the new state (window moved to the
target) and the rectangle the placement call produces. -/
def applyWindowSize (s : IslandWindowState) : IslandWindowState × Rect :=
  let rcNewSize := if s.fullscreen then s.rcFullscreenWindowSize else s.rcNonFullscreenWindowSize
  let target : Rect :=
    { left := rcNewSize.left
      top := rcNewSize.top
      right := rcNewSize.left + RECT_WIDTH rcNewSize
      bottom := rcNewSize.top + RECT_HEIGHT rcNewSize }
  ({ s with windowRect := target }, target)

/-- Effects of one `SetIsFullscreen` call: the values written by
`SetWindowLongW(GWL_STYLE, ...)` and `SetWindowLongW(GWL_EXSTYLE, ...)`, and
the rectangles passed to `SetWindowPos`. -/
structure FullscreenEffects where
  styleWrites : List Nat
  exStyleWrites : List Nat
  setWindowPosCalls : List Rect
deriving DecidableEq, Repr

/-- `IslandWindow::SetIsFullscreen`: records the old fullscreen flag, sets the
new one, updates window styles when the guard allows, then backs up window
sizes and applies the target geometry. -/
def setIsFullscreen (env : SysEnv) (s : IslandWindowState)
    (fFullscreenEnabled : Bool) : IslandWindowState × FullscreenEffects :=
  let fOldIsInFullscreen := s.fullscreen
  let s1 := { s with fullscreen := fFullscreenEnabled }
  let styled :=
    if shouldUpdateStylesOnFullscreen fOldIsInFullscreen s1.fullscreen then
      let dwWindowStyle :=
        if s1.fullscreen then
          setFlags (clearFlags s1.windowStyle WS_OVERLAPPEDWINDOW) WS_POPUP
        else
          setFlags (clearFlags s1.windowStyle WS_POPUP) WS_OVERLAPPEDWINDOW
      let dwExWindowStyle :=
        if s1.fullscreen then
          clearFlags s1.windowExStyle WS_EX_WINDOWEDGE
        else
          setFlags s1.windowExStyle WS_EX_WINDOWEDGE
      (({ s1 with windowStyle := dwWindowStyle, windowExStyle := dwExWindowStyle } :
          IslandWindowState),
        ([dwWindowStyle], [dwExWindowStyle]))
    else (s1, ([], []))
  let s2 := backupWindowSizes env styled.1 fOldIsInFullscreen
  let applied := applyWindowSize s2
  (applied.1,
    { styleWrites := styled.2.1
      exStyleWrites := styled.2.2
      setWindowPosCalls := [applied.2] })

/-- `IslandWindow::ToggleFullscreen`: `SetIsFullscreen(!_fullscreen)`. -/
def toggleFullscreen (env : SysEnv) (s : IslandWindowState) :
    IslandWindowState × FullscreenEffects :=
  setIsFullscreen env s (!s.fullscreen)

/-- A concrete windowed state with no interop surface yet (fresh window before
`Initialize`). -/
def preInitState : IslandWindowState :=
  { window := 1
    interopWindowHandle := none
    rootGrid := none
    fullscreen := false
    rcNonFullscreenWindowSize := { left := 0, top := 0, right := 0, bottom := 0 }
    rcFullscreenWindowSize := { left := 0, top := 0, right := 0, bottom := 0 }
    windowStyle := WS_OVERLAPPEDWINDOW
    windowExStyle := WS_EX_WINDOWEDGE
    windowRect := { left := 10, top := 20, right := 110, bottom := 220 }
    pUiaProvider := none }

/-- A concrete initialized windowed state (interop surface attached). -/
def initializedState : IslandWindowState :=
  { preInitState with
      interopWindowHandle := some 42
      rootGrid := some { width := 100, height := 200 } }

/-- A concrete state already in fullscreen. -/
def fullscreenState : IslandWindowState :=
  { initializedState with
      fullscreen := true
      windowStyle := setFlags (clearFlags WS_OVERLAPPEDWINDOW WS_OVERLAPPEDWINDOW) WS_POPUP
      windowExStyle := clearFlags WS_EX_WINDOWEDGE WS_EX_WINDOWEDGE
      rcNonFullscreenWindowSize := { left := 10, top := 20, right := 110, bottom := 220 }
      rcFullscreenWindowSize := { left := 0, top := 0, right := 1920, bottom := 1080 }
      windowRect := { left := 0, top := 0, right := 1920, bottom := 1080 } }

/-- A concrete environment: one 1920x1080 monitor, provider creation throws. -/
def sampleEnv : SysEnv :=
  { monitorInfo := some { left := 0, top := 0, right := 1920, bottom := 1080 }
    logicalSize := (960, 540)
    uiaCreateResult := none }

/-- A second monitor environment, for sequences crossing monitors. -/
def sampleEnv2 : SysEnv :=
  { monitorInfo := some { left := 1920, top := 0, right := 4480, bottom := 1440 }
    logicalSize := (960, 540)
    uiaCreateResult := some 7 }

/-- Rebuilding a rectangle from its origin and width/height yields the same
rectangle. -/
theorem rect_rebuild (r : Rect) :
    ({ left := r.left, top := r.top, right := r.left + RECT_WIDTH r,
       bottom := r.top + RECT_HEIGHT r } : Rect) = r := by
  cases r
  simp [RECT_WIDTH, RECT_HEIGHT]

/-- C1 counterexample: with no interop surface handle, handling `WM_SETFOCUS`
is not free of raised events — the missing `break` makes control fall through
the non-client button cases, which raise the drag-region-clicked event before
delegating to the base handler. -/
theorem setfocus_no_surface_raises_event :
    ¬ ((messageHandler none preInitState .wmSetFocus).1.dragRegionClickedRaised = false) := by
  decide

/-- C1 (amended): on `WM_SETFOCUS`, if an interop surface handle exists the
handler forwards focus to it and returns the handled result; if none exists,
the handler raises the `DragRegionClicked` event (switch fallthrough into the
non-client button cases) and then delegates to default base handling. -/
theorem setfocus_dispatch (cb : Option CreateCallback) (s : IslandWindowState) (h : Nat) :
    (s.interopWindowHandle = some h →
      messageHandler cb s .wmSetFocus
        = ({ noEffects with setFocusCalls := [h] }, .handled 0))
    ∧ (s.interopWindowHandle = none →
      messageHandler cb s .wmSetFocus
        = ({ noEffects with dragRegionClickedRaised := true }, .delegated)) := by
  constructor <;> intro hh <;> simp [messageHandler, hh]

/-- Witness for C1's amended theorem at concrete states with and without an
interop surface handle. -/
theorem setfocus_dispatch_witness :
    messageHandler none initializedState .wmSetFocus
        = ({ noEffects with setFocusCalls := [42] }, .handled 0)
    ∧ messageHandler none preInitState .wmSetFocus
        = ({ noEffects with dragRegionClickedRaised := true }, .delegated) :=
  ⟨(setfocus_dispatch none initializedState 42).1 rfl,
   (setfocus_dispatch none preInitState 0).2 rfl⟩

/-- C5: a `WM_CLOSE` message only raises the `WindowCloseButtonClicked` event
and returns the fully-handled result (`LRESULT` 0, no delegation to default
close behaviour); the handler neither posts a quit message nor destroys the
window. -/
theorem close_message_notifies_only (cb : Option CreateCallback) (s : IslandWindowState) :
    messageHandler cb s .wmClose
      = ({ noEffects with windowCloseButtonClickedRaised := true }, .handled 0)
    ∧ (messageHandler cb s .wmClose).1.postQuitMessageCalled = false
    ∧ (messageHandler cb s .wmClose).1.destroyWindowCalled = false :=
  ⟨rfl, rfl, rfl⟩

/-- C8: a `WM_MENUCHAR` message returns `MAKELRESULT(0, MNC_CLOSE)` directly
(no delegation to default processing); that sentinel has `MNC_CLOSE` in its
high word and 0 in its low word. -/
theorem menuchar_returns_sentinel (cb : Option CreateCallback) (s : IslandWindowState) :
    messageHandler cb s .wmMenuChar = (noEffects, .handled (MAKELRESULT 0 MNC_CLOSE))
    ∧ MAKELRESULT 0 MNC_CLOSE / 2 ^ 16 % 2 ^ 16 = MNC_CLOSE
    ∧ MAKELRESULT 0 MNC_CLOSE % 2 ^ 16 = 0 :=
  ⟨rfl, by decide, by decide⟩

/-- C6: on `WM_CREATE` with a registered creation callback, the callback is
invoked exactly once with the window handle and the proposed bounds extracted
from the creation parameters; launch mode `maximizedMode` shows the window
with `SW_MAXIMIZE` and `defaultMode` with `SW_SHOW`. -/
theorem create_message_with_callback (s : IslandWindowState) (cs : CreateStruct)
    (f : CreateCallback) (mode : LaunchMode)
    (hmode : f s.window (createRect cs) = mode) :
    (messageHandler (some f) s (.wmCreate cs)).1.createCallbackCalls
        = [(s.window, createRect cs)]
    ∧ (messageHandler (some f) s (.wmCreate cs)).1.showWindowCalls
        = [(s.window, if mode = LaunchMode.maximizedMode then SW_MAXIMIZE else SW_SHOW)]
    ∧ (messageHandler (some f) s (.wmCreate cs)).2 = .handled 0 := by
  subst hmode
  exact ⟨rfl, rfl, rfl⟩

/-- Witness for C6 at a concrete creation message with a callback requesting
maximized launch. -/
theorem create_message_with_callback_witness :
    (messageHandler (some fun _ _ => LaunchMode.maximizedMode) preInitState
        (.wmCreate { x := 3, y := 4, cx := 50, cy := 60 })).1.createCallbackCalls
      = [(1, { left := 3, top := 4, right := 53, bottom := 64 })]
    ∧ (messageHandler (some fun _ _ => LaunchMode.maximizedMode) preInitState
        (.wmCreate { x := 3, y := 4, cx := 50, cy := 60 })).1.showWindowCalls
      = [(1, SW_MAXIMIZE)]
    ∧ (messageHandler (some fun _ _ => LaunchMode.maximizedMode) preInitState
        (.wmCreate { x := 3, y := 4, cx := 50, cy := 60 })).2 = .handled 0 :=
  create_message_with_callback preInitState { x := 3, y := 4, cx := 50, cy := 60 }
    (fun _ _ => LaunchMode.maximizedMode) LaunchMode.maximizedMode rfl

/-- C10: on `WM_CREATE` with no registered creation callback, the handler
still succeeds: no callback invocation is recorded, the launch mode defaults
to `defaultMode`, and the window is shown with `SW_SHOW`. -/
theorem create_message_without_callback (s : IslandWindowState) (cs : CreateStruct) :
    (messageHandler none s (.wmCreate cs)).1.createCallbackCalls = []
    ∧ (messageHandler none s (.wmCreate cs)).1.showWindowCalls = [(s.window, SW_SHOW)]
    ∧ (messageHandler none s (.wmCreate cs)).2 = .handled 0 :=
  ⟨rfl, rfl, rfl⟩

/-- C7: calling `OnResize` while the interop surface handle is still null is a
no-op: the state is returned unchanged (every field equal) and no resize call
is issued; the function is total, so no exception is raised. -/
theorem onResize_before_initialize_noop (env : SysEnv) (s : IslandWindowState)
    (width height : Nat) (hnull : s.interopWindowHandle = none) :
    onResize env s width height = (s, { interopSetWindowPosCalls := [] }) := by
  simp [onResize, hnull]

/-- Witness for C7 at the concrete pre-initialization state. -/
theorem onResize_before_initialize_noop_witness :
    onResize sampleEnv preInitState 800 600
      = (preInitState, { interopSetWindowPosCalls := [] }) :=
  onResize_before_initialize_noop sampleEnv preInitState 800 600 rfl

/-- C9: when provider creation throws, `_GetUiaProvider` catches the
exception, logs it, stores null and returns null; when a provider is already
stored, it is returned unchanged with no re-creation and no state change. -/
theorem getUiaProvider_error_handling (env : SysEnv) (s : IslandWindowState) :
    (s.pUiaProvider = none → env.uiaCreateResult = none →
      getUiaProvider env s = (s, none, true))
    ∧ (∀ p, s.pUiaProvider = some p → getUiaProvider env s = (s, some p, false)) := by
  constructor
  · intro h1 h2
    cases s
    simp_all [getUiaProvider]
  · intro p hp
    simp [getUiaProvider, hp]

/-- Witness for C9 at the concrete state with no stored provider and an
environment whose provider creation throws. -/
theorem getUiaProvider_error_handling_witness :
    getUiaProvider sampleEnv preInitState = (preInitState, none, true) :=
  (getUiaProvider_error_handling sampleEnv preInitState).1 rfl rfl

/-- C2: across any `SetIsFullscreen`/`ToggleFullscreen` call, the cached
non-fullscreen rectangle is overwritten only by a call made while the window
is not currently in fullscreen, and whenever a call puts the window into
fullscreen the cached fullscreen rectangle equals the monitor rectangle under
the window at that moment (`ToggleFullscreen` is `SetIsFullscreen` on the
negated flag, so per-call facts cover all sequences). -/
theorem fullscreen_rect_cache_invariant (env : SysEnv) (s : IslandWindowState)
    (f : Bool) (m : Rect) (hm : env.monitorInfo = some m) :
    (s.fullscreen = true →
      (setIsFullscreen env s f).1.rcNonFullscreenWindowSize = s.rcNonFullscreenWindowSize)
    ∧ (f = true → (setIsFullscreen env s f).1.rcFullscreenWindowSize = m)
    ∧ toggleFullscreen env s = setIsFullscreen env s (!s.fullscreen) := by
  refine ⟨?_, ?_, rfl⟩
  · intro hfs
    cases f <;>
      simp [setIsFullscreen, backupWindowSizes, applyWindowSize,
        shouldUpdateStylesOnFullscreen, hfs, hm]
  · intro hf
    subst hf
    cases hfs : s.fullscreen <;>
      simp [setIsFullscreen, backupWindowSizes, applyWindowSize,
        shouldUpdateStylesOnFullscreen, hfs, hm]

/-- Witness for C2: re-entering fullscreen on a second monitor keeps the
cached non-fullscreen rectangle and refreshes the fullscreen rectangle to the
new monitor. -/
theorem fullscreen_rect_cache_invariant_witness :
    (setIsFullscreen sampleEnv2 fullscreenState true).1.rcNonFullscreenWindowSize
        = fullscreenState.rcNonFullscreenWindowSize
    ∧ (setIsFullscreen sampleEnv2 fullscreenState true).1.rcFullscreenWindowSize
        = { left := 1920, top := 0, right := 4480, bottom := 1440 } :=
  ⟨(fullscreen_rect_cache_invariant sampleEnv2 fullscreenState true
      { left := 1920, top := 0, right := 4480, bottom := 1440 } rfl).1 rfl,
   (fullscreen_rect_cache_invariant sampleEnv2 fullscreenState true
      { left := 1920, top := 0, right := 4480, bottom := 1440 } rfl).2.1 rfl⟩

/-- Exiting fullscreen from any fullscreen state repositions the window to
the cached non-fullscreen rectangle, both in the resulting state and in the
recorded placement call. -/
theorem setIsFullscreen_exit_uses_cached (env : SysEnv) (t : IslandWindowState)
    (ht : t.fullscreen = true) :
    (setIsFullscreen env t false).1.windowRect = t.rcNonFullscreenWindowSize
    ∧ (setIsFullscreen env t false).2.setWindowPosCalls
        = [t.rcNonFullscreenWindowSize] := by
  simp [setIsFullscreen, backupWindowSizes, applyWindowSize,
    shouldUpdateStylesOnFullscreen, ht, rect_rebuild]

/-- C3: from any windowed state, entering fullscreen and then immediately
leaving it repositions the window exactly to the rectangle captured before
the first transition: the second placement call targets that rectangle and
the resulting window rectangle equals it. -/
theorem fullscreen_roundtrip_restores_rect (env1 env2 : SysEnv)
    (s : IslandWindowState) (hw : s.fullscreen = false) :
    (setIsFullscreen env2 (setIsFullscreen env1 s true).1 false).1.windowRect
        = s.windowRect
    ∧ (setIsFullscreen env2 (setIsFullscreen env1 s true).1 false).2.setWindowPosCalls
        = [s.windowRect] := by
  have hrc : (setIsFullscreen env1 s true).1.rcNonFullscreenWindowSize = s.windowRect := by
    cases hmon : env1.monitorInfo <;>
      simp [setIsFullscreen, backupWindowSizes, applyWindowSize,
        shouldUpdateStylesOnFullscreen, hw, hmon]
  have hfs : (setIsFullscreen env1 s true).1.fullscreen = true := by
    cases hmon : env1.monitorInfo <;>
      simp [setIsFullscreen, backupWindowSizes, applyWindowSize,
        shouldUpdateStylesOnFullscreen, hw, hmon]
  have h2 := setIsFullscreen_exit_uses_cached env2 (setIsFullscreen env1 s true).1 hfs
  rw [hrc] at h2
  exact h2

/-- Witness for C3 at the concrete initialized windowed state. -/
theorem fullscreen_roundtrip_restores_rect_witness :
    (setIsFullscreen sampleEnv2 (setIsFullscreen sampleEnv initializedState true).1 false).1.windowRect
        = initializedState.windowRect
    ∧ (setIsFullscreen sampleEnv2 (setIsFullscreen sampleEnv initializedState true).1 false).2.setWindowPosCalls
        = [initializedState.windowRect] :=
  fullscreen_roundtrip_restores_rect sampleEnv sampleEnv2 initializedState rfl

/-- C4: a `SetIsFullscreen(true)` call made while already in fullscreen
writes no window style or extended style (the guard blocks the style update,
leaving both style words unchanged) but still issues exactly one placement
call re-applying the window geometry. -/
theorem setIsFullscreen_reentrant_geometry (env : SysEnv) (s : IslandWindowState)
    (hfs : s.fullscreen = true) :
    (setIsFullscreen env s true).2.styleWrites = []
    ∧ (setIsFullscreen env s true).2.exStyleWrites = []
    ∧ (setIsFullscreen env s true).1.windowStyle = s.windowStyle
    ∧ (setIsFullscreen env s true).1.windowExStyle = s.windowExStyle
    ∧ (setIsFullscreen env s true).2.setWindowPosCalls.length = 1 := by
  cases hmon : env.monitorInfo <;>
    simp [setIsFullscreen, backupWindowSizes, applyWindowSize,
      shouldUpdateStylesOnFullscreen, hfs, hmon]

/-- Witness for C4 at the concrete fullscreen state. -/
theorem setIsFullscreen_reentrant_geometry_witness :
    (setIsFullscreen sampleEnv fullscreenState true).2.styleWrites = []
    ∧ (setIsFullscreen sampleEnv fullscreenState true).2.exStyleWrites = []
    ∧ (setIsFullscreen sampleEnv fullscreenState true).1.windowStyle
        = fullscreenState.windowStyle
    ∧ (setIsFullscreen sampleEnv fullscreenState true).1.windowExStyle
        = fullscreenState.windowExStyle
    ∧ (setIsFullscreen sampleEnv fullscreenState true).2.setWindowPosCalls.length = 1 :=
  setIsFullscreen_reentrant_geometry sampleEnv fullscreenState rfl
